import Mathlib

/-!
Shallow embedding of the temp-scanner BLE service
(`src/src/services/ble.service.ts`) in Lean 4.

The service keeps an in-memory device registry (`deviceMap`), a settings
map mirroring the persisted per-device watermark
(`deviceSettingsMap`), a durable key-value store (`Preferences`,
modelled as `durableStore`), an optional connected device id, a
scanning flag, and BLE notification subscriptions.  Asynchronous
`saveDeviceSettings()` calls that were started but whose durable write
has not yet landed are modelled as a FIFO queue of settings-map
snapshots (`pendingSaves`): in the source, `saveDeviceSettings()` is
invoked without `await` (line 240), so the snapshot
`Object.fromEntries(this.deviceSettingsMap)` is taken synchronously
while `await Preferences.set(...)` resolves only after the calling
callback has returned.
-/

set_option autoImplicit false

namespace TempScanner

/-- `TempSensor.status` in the source:
`'idle' | 'processing' | 'connected' | 'failed'`. -/
inductive Status where
  | idle
  | processing
  | connected
  | failed
  deriving DecidableEq, Repr

/-- The `SensorData` interface (ble.service.ts lines 8-16), the decoded
form of one data-notification JSON payload.  The float-valued fields
(`temperature`, `humidity`, `stateOfEnergy`) are carried opaquely by the
service, so they are modelled as integers. -/
structure SensorData where
  producedBy : String
  relayedBy : String
  measureCount : Nat
  measuredAt : Nat
  temperature : Int
  humidity : Int
  stateOfEnergy : Int
  deriving DecidableEq, Repr

/-- The `TempSensor` interface (ble.service.ts lines 18-27).
`lastUpdate` (a `Date` in the source) is modelled as a numeric
timestamp; the optional fields `sensorData?` and `isCollecting?` are
`Option`s. -/
structure TempSensor where
  id : String
  name : String
  rssi : Int
  lastUpdate : Nat
  status : Status
  sensorData : Option (List SensorData)
  lastKnownMeasureCount : Nat
  isCollecting : Option Bool
  deriving DecidableEq, Repr

/-- Lookup in a JS `Map` modelled as an association list
(first matching key wins; a `Map` has at most one entry per key). -/
def mapGet {α : Type} : List (String × α) → String → Option α
  | [], _ => none
  | (k, v) :: rest, key => if k = key then some v else mapGet rest key

/-- `Map.set`: replace the entry for the key if present, append otherwise. -/
def mapSet {α : Type} : List (String × α) → String → α → List (String × α)
  | [], key, v => [(key, v)]
  | (k, w) :: rest, key, v =>
      if k = key then (key, v) :: rest else (k, w) :: mapSet rest key v

/-- The watermark read used by the service: the stored
`lastKnownMeasureCount` for the identity, defaulting to `0` when the
store has no entry (ble.service.ts line 169:
`this.deviceSettingsMap.get(...) || lastKnownMeasureCount 0`). -/
def watermarkGet (m : List (String × Nat)) (id : String) : Nat :=
  (mapGet m id).getD 0

/-- A raw data-notification payload.  The source decodes the payload as
UTF-8 text and runs `JSON.parse` on it inside `try/catch`
(ble.service.ts lines 224-246): a payload either parses to a
`SensorData` record or throws.  The embedding therefore represents a
payload as either a well-formed JSON encoding of a `SensorData` value
or a malformed byte string. -/
inductive DataPayload where
  | json (d : SensorData)
  | malformed (raw : String)
  deriving DecidableEq, Repr

/-- `JSON.parse` of a notification payload into `SensorData`:
`some` on a well-formed payload, `none` when parsing throws. -/
def decodeData : DataPayload → Option SensorData
  | .json d => some d
  | .malformed _ => none

/-- Characteristic UUID tail used to tag notification subscriptions
(full UUID strings abbreviated to their distinguishing slot). -/
def DATA_CHAR : String := "a495ff22"

/-- Status characteristic tag (see `DATA_CHAR`). -/
def STATUS_CHAR : String := "a495ff25"

/-- The mutable state of `BleService` (ble.service.ts lines 39-57),
together with the durable `Preferences` store and the in-flight
`saveDeviceSettings` writes.  `subscriptions` records the active
notification subscriptions as (deviceId, characteristic) pairs. -/
structure BleState where
  deviceMap : List (String × TempSensor)
  isScanning : Bool
  connectedDeviceId : Option String
  deviceSettingsMap : List (String × Nat)
  durableStore : List (String × Nat)
  pendingSaves : List (List (String × Nat))
  subscriptions : List (String × String)
  deriving DecidableEq, Repr

/-- Completion of `loadDeviceSettings` (ble.service.ts lines 64-74):
when the stored JSON value resolves, the in-memory settings map is
replaced wholesale by the parsed map
(`this.deviceSettingsMap = new Map(Object.entries(JSON.parse(value)))`). -/
def loadDeviceSettingsComplete (s : BleState) (parsed : List (String × Nat)) : BleState :=
  { s with deviceSettingsMap := parsed }

/-- A discovery advertisement (`ScanResult` from the BLE plugin):
the fields `onScanResult` reads. -/
structure ScanResult where
  deviceId : String
  localName : Option String
  rssi : Option Int
  deriving DecidableEq, Repr

/-- `onScanResult` (ble.service.ts lines 164-191).  `now` stands for
`new Date()`.  Unseen identity: insert a fresh `TempSensor` with status
`idle`, empty measurement list, and the stored watermark (default 0).
Seen identity: assign `rssi`, `lastUpdate` and `lastKnownMeasureCount`
(lines 184-186). -/
def onScanResult (s : BleState) (now : Nat) (result : ScanResult) : BleState :=
  let settings := watermarkGet s.deviceSettingsMap result.deviceId
  match mapGet s.deviceMap result.deviceId with
  | none =>
      let newSensor : TempSensor :=
        { id := result.deviceId
          name := result.localName.getD "ESP32_Sensor"
          rssi := result.rssi.getD (-100)
          lastUpdate := now
          status := .idle
          sensorData := some []
          lastKnownMeasureCount := settings
          isCollecting := none }
      { s with deviceMap := mapSet s.deviceMap result.deviceId newSensor }
  | some existingDevice =>
      let updated := { existingDevice with
        rssi := result.rssi.getD (-100)
        lastUpdate := now
        lastKnownMeasureCount := settings }
      { s with deviceMap := mapSet s.deviceMap result.deviceId updated }

/-- The data-notification callback registered by `connectToSensor`
(ble.service.ts lines 221-248), applied to one incoming payload.  The
callback closes over the `sensor` object, which lives in `deviceMap`;
the `none` lookup branch is unreachable in the source because the
closure holds a reference to a registered sensor.  On parse success:
`measuredAt` is scaled to milliseconds (line 230), the record is pushed
onto `sensorData` (or the list is created, lines 233-237), the
watermark is advanced with `Math.max` (line 238), the settings map is
updated (line 239), and `saveDeviceSettings()` is started without
`await` (line 240) — queued here as a pending durable write of the
settings snapshot.  On parse failure the error is logged and nothing
changes. -/
def onDataNotification (s : BleState) (sensorId : String) (payload : DataPayload) : BleState :=
  match decodeData payload with
  | none => s
  | some data0 =>
      match mapGet s.deviceMap sensorId with
      | none => s
      | some sensor =>
          let data := { data0 with measuredAt := data0.measuredAt * 1000 }
          let newList := (sensor.sensorData.getD []) ++ [data]
          let newCount := max sensor.lastKnownMeasureCount data.measureCount
          let sensor2 := { sensor with
            sensorData := some newList
            lastKnownMeasureCount := newCount }
          let settings := mapSet s.deviceSettingsMap sensorId newCount
          { s with
            deviceMap := mapSet s.deviceMap sensorId sensor2
            deviceSettingsMap := settings
            pendingSaves := s.pendingSaves ++ [settings] }

/-- Completion of one queued `saveDeviceSettings` write: the oldest
pending snapshot lands in the durable store
(`await Preferences.set(...)`, ble.service.ts lines 80-83; the whole
serialized settings object replaces the stored value). -/
def persistStep (s : BleState) : BleState :=
  match s.pendingSaves with
  | [] => s
  | snap :: rest => { s with durableStore := snap, pendingSaves := rest }

/-- All queued `saveDeviceSettings` writes complete, in order: the
durable store ends at the newest snapshot (or stays put when none are
pending). -/
def drainSaves (s : BleState) : BleState :=
  { s with durableStore := s.pendingSaves.getLastD s.durableStore, pendingSaves := [] }

/-- `updateDeviceStatus` (ble.service.ts lines 356-361): set the status
of a registered sensor; a no-op when the id is unknown. -/
def updateDeviceStatus (s : BleState) (sensorId : String) (status : Status) : BleState :=
  match mapGet s.deviceMap sensorId with
  | none => s
  | some sensor =>
      { s with deviceMap := mapSet s.deviceMap sensorId { sensor with status := status } }

/-- `updateSensorCollectingStatus` (ble.service.ts lines 266-272)
applied through the registry: set `isCollecting` of a registered
sensor. -/
def updateCollecting (s : BleState) (sensorId : String) (isCollecting : Bool) : BleState :=
  match mapGet s.deviceMap sensorId with
  | none => s
  | some sensor =>
      { s with deviceMap := mapSet s.deviceMap sensorId { sensor with isCollecting := some isCollecting } }

/-- `startScan` on a native platform (ble.service.ts lines 98-114):
a no-op when a scan is already in progress, otherwise the scanning flag
is raised and the duty-cycled scan loop starts.  Either way the
controller ends active. -/
def startScanNative (s : BleState) : BleState :=
  if s.isScanning then s else { s with isScanning := true }

/-- First phase of `connectToSensor` (ble.service.ts lines 193-202): the
synchronous part up to the transport connect.  Returns `none` when the
request is rejected by the guard on line 196
(`if (this.connectedDeviceIdSubject.value || !sensor) return`) — no
transport connect is issued and the state is untouched.  Otherwise the
target status is set to `processing`, scanning is stopped, and the
transport connect is issued; the returned state is what the service
holds while `BleClient.connect` is pending. -/
def connectToSensorStart (s : BleState) (sensorId : String) : Option BleState :=
  match mapGet s.deviceMap sensorId with
  | none => none
  | some _ =>
      if s.connectedDeviceId.isSome then none
      else some { updateDeviceStatus s sensorId .processing with isScanning := false }

/-- Second phase of `connectToSensor` (ble.service.ts lines 204-257),
run when the transport connect succeeds: record the connected id, set
status `connected`, clear the session measurement list (line 207), read
the collection status (`statusByte`), and subscribe to the data and
status notification characteristics. -/
def connectToSensorEstablished (s : BleState) (sensorId : String) (statusByte : Bool) : BleState :=
  match mapGet s.deviceMap sensorId with
  | none => s
  | some sensor =>
      let s2 := { s with
        connectedDeviceId := some sensorId
        deviceMap := mapSet s.deviceMap sensorId
          { sensor with status := .connected, sensorData := some [] } }
      let s3 := updateCollecting s2 sensorId statusByte
      { s3 with subscriptions := s3.subscriptions ++ [(sensorId, DATA_CHAR), (sensorId, STATUS_CHAR)] }

/-- The `onDisconnect` handler (ble.service.ts lines 343-354): clear the
connected id, set the sensor status to `idle`, clear its collecting
flag, and restart scanning. -/
def onDisconnect (s : BleState) (deviceId : String) : BleState :=
  let s1 := { s with connectedDeviceId := none }
  let s2 := updateDeviceStatus s1 deviceId .idle
  let s3 := match mapGet s2.deviceMap deviceId with
            | some _ => updateCollecting s2 deviceId false
            | none => s2
  startScanNative s3

/-- A transport-level disconnection of `deviceId` (peer-initiated, or
the final `BleClient.disconnect` of the host path): the link drops, so
every notification subscription on that device dies with the
connection, and the transport invokes the registered `onDisconnect`
callback (ble.service.ts line 202). -/
def transportDisconnect (s : BleState) (deviceId : String) : BleState :=
  onDisconnect
    { s with subscriptions := s.subscriptions.filter (fun sub => sub.1 ≠ deviceId) }
    deviceId

/-- `disconnect` (ble.service.ts lines 330-341), success path: a no-op
without a connected device; otherwise stop the data and status
notifications, then issue the transport disconnect, which fires the
`onDisconnect` callback. -/
def hostDisconnect (s : BleState) : BleState :=
  match s.connectedDeviceId with
  | none => s
  | some connectedId =>
      let s1 := { s with subscriptions :=
        s.subscriptions.filter (fun sub => ¬(sub.1 = connectedId ∧ sub.2 = DATA_CHAR)) }
      let s2 := { s1 with subscriptions :=
        s1.subscriptions.filter (fun sub => ¬(sub.1 = connectedId ∧ sub.2 = STATUS_CHAR)) }
      transportDisconnect s2 connectedId

/-- `OPCODE.REQUEST_DATA` (ble.service.ts line 30). -/
def OPCODE_REQUEST_DATA : Nat := 0x01

/-- The command frame built by `requestData` (ble.service.ts lines
301-304): a 5-byte buffer, byte 0 the opcode `0x01`, bytes 1..4 the
sequence number as a little-endian 32-bit value (`setUint32` stores the
value modulo 2^32). -/
def requestDataFrame (lastKnownId : Nat) : List Nat :=
  let v := lastKnownId % 4294967296
  [OPCODE_REQUEST_DATA, v % 256, v / 256 % 256, v / 65536 % 256, v / 16777216 % 256]

/-- Modelled from the spec: the round-trip decoding harness for command
frames is not part of src/.  Per the wire layout, byte 0 is the opcode
and a request-data-since frame carries a 4-byte little-endian sequence
number in bytes 1..4. -/
def decodeCommandFrame (frame : List Nat) : Option (Nat × Nat) :=
  match frame with
  | [op, b0, b1, b2, b3] => some (op, b0 + 256 * b1 + 65536 * b2 + 16777216 * b3)
  | _ => none

/-- Modelled from the spec: the call site that issues the
request-data-since command (the UI template) is not part of src/.  Per
the spec, the sequence-number argument passed to `requestData` is the
value read from the Watermark Store for the identity (the sensor's
`lastKnownMeasureCount`, mirrored from `deviceSettingsMap`, default 0
if unknown), never a value invented by the caller. -/
def issueRequestDataFrame (settingsStore : List (String × Nat)) (sensorId : String) : List Nat :=
  requestDataFrame (watermarkGet settingsStore sensorId)

/-- An event interleaving step for the ingest/persist machinery: either
a data notification arrives for a device, or one in-flight
`saveDeviceSettings` durable write completes. -/
inductive BleStep where
  | data (sensorId : String) (payload : DataPayload)
  | persist
  deriving DecidableEq, Repr

/-- Apply one step. -/
def applyStep (s : BleState) : BleStep → BleState
  | .data sensorId payload => onDataNotification s sensorId payload
  | .persist => persistStep s

/-- Run a list of steps in order. -/
def runSteps (s : BleState) : List BleStep → BleState
  | [] => s
  | step :: rest => runSteps (applyStep s step) rest

/-- The in-memory measurement list of a registered sensor
(`sensor.sensorData`, `[]` when absent or unset). -/
def storedData (s : BleState) (sensorId : String) : List SensorData :=
  ((mapGet s.deviceMap sensorId).bind TempSensor.sensorData).getD []

/-- The in-memory watermark of a registered sensor
(`sensor.lastKnownMeasureCount`, `0` when the sensor is unknown). -/
def inMemWatermark (s : BleState) (sensorId : String) : Nat :=
  ((mapGet s.deviceMap sensorId).map TempSensor.lastKnownMeasureCount).getD 0

/-- The sequence numbers of the payloads that decode successfully, in
arrival order. -/
def seqsOf (ps : List DataPayload) : List Nat :=
  ps.filterMap (fun p => (decodeData p).map SensorData.measureCount)

/-- Deliver a list of data notifications for one device, in order. -/
def processAll (s : BleState) (sensorId : String) (ps : List DataPayload) : BleState :=
  ps.foldl (fun t p => onDataNotification t sensorId p) s

/-- Durability relation for one identity: the durable store, the
settings map, and every still-pending `saveDeviceSettings` snapshot
hold a watermark no larger than the sensor's in-memory watermark. -/
def durableLagInv (s : BleState) (sensorId : String) : Prop :=
  ∀ sensor, mapGet s.deviceMap sensorId = some sensor →
    watermarkGet s.durableStore sensorId ≤ sensor.lastKnownMeasureCount ∧
    watermarkGet s.deviceSettingsMap sensorId ≤ sensor.lastKnownMeasureCount ∧
    ∀ snap ∈ s.pendingSaves, watermarkGet snap sensorId ≤ sensor.lastKnownMeasureCount

/-! ### Concrete fixtures used by counterexamples and witnesses -/

/-- A sensor in an active session whose watermark is 4. -/
def sensorS : TempSensor :=
  { id := "S", name := "ESP32_Sensor", rssi := -50, lastUpdate := 0,
    status := .connected, sensorData := some [], lastKnownMeasureCount := 4,
    isCollecting := some true }

/-- A service state mid-session: sensor `S` connected, watermark 4 in
memory, in settings and in the durable store, no pending writes. -/
def stateS : BleState :=
  { deviceMap := [("S", sensorS)]
    isScanning := false
    connectedDeviceId := some "S"
    deviceSettingsMap := [("S", 4)]
    durableStore := [("S", 4)]
    pendingSaves := []
    subscriptions := [("S", DATA_CHAR), ("S", STATUS_CHAR)] }

/-- A measurement with sequence number 3 (below the watermark 4 of
`sensorS`). -/
def sd3 : SensorData :=
  { producedBy := "S", relayedBy := "S", measureCount := 3, measuredAt := 100,
    temperature := 21, humidity := 40, stateOfEnergy := 90 }

/-- A measurement with sequence number 7 (above the watermark 4 of
`sensorS`). -/
def sd7 : SensorData :=
  { producedBy := "S", relayedBy := "S", measureCount := 7, measuredAt := 200,
    temperature := 22, humidity := 41, stateOfEnergy := 89 }

/-- `sd3` as a well-formed notification payload. -/
def payload3 : DataPayload := .json sd3

/-- `sd7` as a well-formed notification payload. -/
def payload7 : DataPayload := .json sd7

/-- An idle discovered sensor `A`. -/
def sensorIdleA : TempSensor :=
  { id := "A", name := "ESP32_Sensor", rssi := -60, lastUpdate := 0,
    status := .idle, sensorData := some [], lastKnownMeasureCount := 0,
    isCollecting := none }

/-- An idle discovered sensor `B`. -/
def sensorIdleB : TempSensor :=
  { id := "B", name := "ESP32_Sensor", rssi := -70, lastUpdate := 0,
    status := .idle, sensorData := some [], lastKnownMeasureCount := 0,
    isCollecting := none }

/-- Two discovered idle sensors, nothing connected, scanning. -/
def stateAB : BleState :=
  { deviceMap := [("A", sensorIdleA), ("B", sensorIdleB)]
    isScanning := true
    connectedDeviceId := none
    deviceSettingsMap := []
    durableStore := []
    pendingSaves := []
    subscriptions := [] }

/-- The state while the connect request for `A` is in flight: `A` is
`processing`, scanning stopped, but `connectedDeviceId` is still unset
because it is only assigned after `BleClient.connect` succeeds
(ble.service.ts line 204). -/
def stateA1 : BleState :=
  { stateAB with
    deviceMap := [("A", { sensorIdleA with status := .processing }), ("B", sensorIdleB)]
    isScanning := false }

/-- An advertisement from device `D`. -/
def scanD : ScanResult :=
  { deviceId := "D", localName := some "ESP32_Sensor", rssi := some (-40) }

/-- A fresh service right after startup, before `loadDeviceSettings`
has resolved. -/
def state9a : BleState :=
  { deviceMap := []
    isScanning := true
    connectedDeviceId := none
    deviceSettingsMap := []
    durableStore := [("D", 10)]
    pendingSaves := []
    subscriptions := [] }

/-- `D` discovered while the settings load is still pending: inserted
with the default watermark 0. -/
def state9b : BleState := onScanResult state9a 0 scanD

/-- The settings load resolves afterwards with the persisted watermark
10 for `D`. -/
def state9c : BleState := loadDeviceSettingsComplete state9b [("D", 10)]

/-- The record `onScanResult` inserts for the advertisement `scanD`
while the settings map is still empty. -/
def sensorD0 : TempSensor :=
  { id := "D", name := "ESP32_Sensor", rssi := -40, lastUpdate := 0,
    status := .idle, sensorData := some [], lastKnownMeasureCount := 0,
    isCollecting := none }

/-- A malformed (non-JSON) notification payload. -/
def badPayload : DataPayload := .malformed "not json"

/-! ### Map lemmas -/

theorem mapGet_mapSet_same {α : Type} (m : List (String × α)) (k : String) (v : α) :
    mapGet (mapSet m k v) k = some v := by
  induction m with
  | nil => simp [mapGet, mapSet]
  | cons hd tl ih =>
      obtain ⟨k', v'⟩ := hd
      by_cases h : k' = k
      · simp [mapGet, mapSet, h]
      · simp [mapGet, mapSet, h, ih]

theorem mapGet_mapSet_ne {α : Type} (m : List (String × α)) (k key : String) (v : α)
    (h : k ≠ key) : mapGet (mapSet m k v) key = mapGet m key := by
  induction m with
  | nil => simp [mapGet, mapSet, h]
  | cons hd tl ih =>
      obtain ⟨k', v'⟩ := hd
      by_cases h' : k' = k
      · subst h'
        simp [mapGet, mapSet, h]
      · simp only [mapGet, mapSet, if_neg h']
        by_cases h2 : k' = key
        · simp [mapGet, h2]
        · simp [mapGet, h2, ih]

theorem watermarkGet_mapSet_same (m : List (String × Nat)) (k : String) (v : Nat) :
    watermarkGet (mapSet m k v) k = v := by
  simp [watermarkGet, mapGet_mapSet_same]

theorem watermarkGet_mapSet_ne (m : List (String × Nat)) (k key : String) (v : Nat)
    (h : k ≠ key) : watermarkGet (mapSet m k v) key = watermarkGet m key := by
  simp [watermarkGet, mapGet_mapSet_ne m k key v h]

/-! ### Characterizations of the ingest callback -/

theorem onDataNotification_decode_fail (s : BleState) (sensorId : String) (p : DataPayload)
    (hp : decodeData p = none) : onDataNotification s sensorId p = s := by
  simp [onDataNotification, hp]

theorem onDataNotification_no_sensor (s : BleState) (sensorId : String) (p : DataPayload)
    (hs : mapGet s.deviceMap sensorId = none) : onDataNotification s sensorId p = s := by
  unfold onDataNotification
  cases hp : decodeData p <;> simp [hs]

theorem onDataNotification_decode_ok (s : BleState) (sensorId : String) (p : DataPayload)
    (d : SensorData) (sensor : TempSensor)
    (hd : decodeData p = some d) (hs : mapGet s.deviceMap sensorId = some sensor) :
    onDataNotification s sensorId p =
      { s with
        deviceMap := mapSet s.deviceMap sensorId
          { sensor with
            sensorData := some ((sensor.sensorData.getD []) ++
              [{ d with measuredAt := d.measuredAt * 1000 }])
            lastKnownMeasureCount := max sensor.lastKnownMeasureCount d.measureCount }
        deviceSettingsMap :=
          mapSet s.deviceSettingsMap sensorId (max sensor.lastKnownMeasureCount d.measureCount)
        pendingSaves := s.pendingSaves ++
          [mapSet s.deviceSettingsMap sensorId (max sensor.lastKnownMeasureCount d.measureCount)] } := by
  simp [onDataNotification, hd, hs]

theorem storedData_onData (s : BleState) (sensorId : String) (p : DataPayload)
    (d : SensorData) (sensor : TempSensor)
    (hd : decodeData p = some d) (hs : mapGet s.deviceMap sensorId = some sensor) :
    storedData (onDataNotification s sensorId p) sensorId =
      storedData s sensorId ++ [{ d with measuredAt := d.measuredAt * 1000 }] := by
  rw [onDataNotification_decode_ok s sensorId p d sensor hd hs]
  simp [storedData, mapGet_mapSet_same, hs]

theorem inMemWatermark_onData (s : BleState) (sensorId : String) (p : DataPayload)
    (d : SensorData) (sensor : TempSensor)
    (hd : decodeData p = some d) (hs : mapGet s.deviceMap sensorId = some sensor) :
    inMemWatermark (onDataNotification s sensorId p) sensorId =
      max sensor.lastKnownMeasureCount d.measureCount := by
  rw [onDataNotification_decode_ok s sensorId p d sensor hd hs]
  simp [inMemWatermark, mapGet_mapSet_same]

theorem inMemWatermark_onData_mono (s : BleState) (sensorId : String) (p : DataPayload) :
    inMemWatermark s sensorId ≤ inMemWatermark (onDataNotification s sensorId p) sensorId := by
  cases hp : decodeData p with
  | none => rw [onDataNotification_decode_fail s sensorId p hp]
  | some d =>
      cases hs : mapGet s.deviceMap sensorId with
      | none => rw [onDataNotification_no_sensor s sensorId p hs]
      | some sensor =>
          rw [inMemWatermark_onData s sensorId p d sensor hp hs]
          simp [inMemWatermark, hs]

/-! ### Disconnect path lemmas -/

theorem startScanNative_eq (t : BleState) : startScanNative t = { t with isScanning := true } := by
  cases t with
  | mk dm isc cid dsm ds ps subs =>
      unfold startScanNative
      cases isc <;> simp

theorem onDisconnect_char (s : BleState) (deviceId : String) (sensor : TempSensor)
    (hs : mapGet s.deviceMap deviceId = some sensor) :
    onDisconnect s deviceId =
      { s with
        connectedDeviceId := none
        deviceMap :=
          mapSet (mapSet s.deviceMap deviceId { sensor with status := .idle })
            deviceId { sensor with status := .idle, isCollecting := some false }
        isScanning := true } := by
  unfold onDisconnect updateDeviceStatus updateCollecting
  simp [hs, mapGet_mapSet_same, startScanNative_eq]

/-! ### Command frame arithmetic -/

theorem requestDataFrame_roundtrip (n : Nat) (h : n < 4294967296) :
    decodeCommandFrame (requestDataFrame n) = some (OPCODE_REQUEST_DATA, n) := by
  have hmod : n % 4294967296 = n := Nat.mod_eq_of_lt h
  simp only [requestDataFrame, decodeCommandFrame, hmod]
  congr 1
  congr 1
  omega

/-! ### Batch processing lemma -/

theorem processAll_spec (sensorId : String) (ps : List DataPayload) :
    ∀ (s : BleState) (sensor : TempSensor),
      mapGet s.deviceMap sensorId = some sensor →
      ∃ sensor2,
        mapGet (processAll s sensorId ps).deviceMap sensorId = some sensor2 ∧
        sensor2.lastKnownMeasureCount = (seqsOf ps).foldl max sensor.lastKnownMeasureCount ∧
        (processAll s sensorId ps).durableStore = s.durableStore ∧
        ((seqsOf ps = [] ∧ (processAll s sensorId ps).pendingSaves = s.pendingSaves) ∨
         (∃ snap, (processAll s sensorId ps).pendingSaves.getLast? = some snap ∧
            watermarkGet snap sensorId = sensor2.lastKnownMeasureCount)) := by
  induction ps with
  | nil =>
      intro s sensor hs
      exact ⟨sensor, hs, rfl, rfl, Or.inl ⟨rfl, rfl⟩⟩
  | cons p rest ih =>
      intro s sensor hs
      have hpa : processAll s sensorId (p :: rest) =
          processAll (onDataNotification s sensorId p) sensorId rest := by
        simp [processAll]
      cases hp : decodeData p with
      | none =>
          have h1 : onDataNotification s sensorId p = s :=
            onDataNotification_decode_fail s sensorId p hp
          have hseq : seqsOf (p :: rest) = seqsOf rest := by simp [seqsOf, hp]
          rw [hpa, h1, hseq]
          exact ih s sensor hs
      | some d =>
          have h1 := onDataNotification_decode_ok s sensorId p d sensor hp hs
          have hseq : seqsOf (p :: rest) = d.measureCount :: seqsOf rest := by
            simp [seqsOf, hp]
          have hmg : mapGet (onDataNotification s sensorId p).deviceMap sensorId = some
              { sensor with
                sensorData := some ((sensor.sensorData.getD []) ++
                  [{ d with measuredAt := d.measuredAt * 1000 }])
                lastKnownMeasureCount := max sensor.lastKnownMeasureCount d.measureCount } := by
            rw [h1]
            exact mapGet_mapSet_same _ _ _
          obtain ⟨sensor2, h2, h3, h4, h5⟩ := ih (onDataNotification s sensorId p) _ hmg
          refine ⟨sensor2, ?_, ?_, ?_, ?_⟩
          · rw [hpa]; exact h2
          · rw [hseq]
            simpa using h3
          · rw [hpa, h4, h1]
          · cases h5 with
            | inl hcase =>
                obtain ⟨hre, hpe⟩ := hcase
                refine Or.inr ⟨mapSet s.deviceSettingsMap sensorId
                  (max sensor.lastKnownMeasureCount d.measureCount), ?_, ?_⟩
                · rw [hpa, hpe, h1]
                  simp [List.getLast?_concat]
                · rw [watermarkGet_mapSet_same, h3, hre]
                  simp
            | inr hcase =>
                obtain ⟨snap, hl, hw⟩ := hcase
                exact Or.inr ⟨snap, by rw [hpa]; exact hl, hw⟩

/-! ### Durability invariant preservation -/

theorem durableLagInv_step (s : BleState) (sensorId : String) (step : BleStep)
    (h : durableLagInv s sensorId) : durableLagInv (applyStep s step) sensorId := by
  cases step with
  | persist =>
      cases hps : s.pendingSaves with
      | nil =>
          simpa [applyStep, persistStep, hps] using h
      | cons snap rest =>
          intro sensor hsen
          have hsen' : mapGet s.deviceMap sensorId = some sensor := by
            simpa [applyStep, persistStep, hps] using hsen
          obtain ⟨hdur, hset, hpend⟩ := h sensor hsen'
          refine ⟨?_, ?_, ?_⟩
          · have := hpend snap (by simp [hps])
            simpa [applyStep, persistStep, hps] using this
          · simpa [applyStep, persistStep, hps] using hset
          · intro snap2 hsnap2
            simp only [applyStep, persistStep, hps] at hsnap2
            exact hpend snap2 (by simp [hps, hsnap2])
  | data sid p =>
      cases hp : decodeData p with
      | none =>
          simpa [applyStep, onDataNotification_decode_fail s sid p hp] using h
      | some d =>
          cases hms : mapGet s.deviceMap sid with
          | none =>
              simpa [applyStep, onDataNotification_no_sensor s sid p hms] using h
          | some sensorSid =>
              have h1 := onDataNotification_decode_ok s sid p d sensorSid hp hms
              simp only [applyStep, h1]
              by_cases hid : sid = sensorId
              · subst hid
                intro sensor hsen
                rw [mapGet_mapSet_same] at hsen
                obtain ⟨hdur, hset, hpend⟩ := h sensorSid hms
                obtain rfl : _ = sensor := Option.some.inj hsen
                refine ⟨?_, ?_, ?_⟩
                · exact le_trans hdur (Nat.le_max_left _ _)
                · rw [watermarkGet_mapSet_same]
                · intro snap2 hsnap2
                  rcases List.mem_append.mp hsnap2 with hin | hin
                  · exact le_trans (hpend snap2 hin) (Nat.le_max_left _ _)
                  · obtain rfl : snap2 = _ := List.mem_singleton.mp hin
                    rw [watermarkGet_mapSet_same]
              · intro sensor hsen
                rw [mapGet_mapSet_ne _ _ _ _ hid] at hsen
                obtain ⟨hdur, hset, hpend⟩ := h sensor hsen
                refine ⟨hdur, ?_, ?_⟩
                · rw [watermarkGet_mapSet_ne _ _ _ _ hid]
                  exact hset
                · intro snap2 hsnap2
                  rcases List.mem_append.mp hsnap2 with hin | hin
                  · exact hpend snap2 hin
                  · obtain rfl : snap2 = _ := List.mem_singleton.mp hin
                    rw [watermarkGet_mapSet_ne _ _ _ _ hid]
                    exact hset

theorem durableLagInv_runSteps (sensorId : String) (steps : List BleStep) :
    ∀ (s : BleState), durableLagInv s sensorId → durableLagInv (runSteps s steps) sensorId := by
  induction steps with
  | nil => intro s h; exact h
  | cons step rest ih =>
      intro s h
      exact ih (applyStep s step) (durableLagInv_step s sensorId step h)

theorem transportDisconnect_char (s : BleState) (deviceId : String) (sensor : TempSensor)
    (hs : mapGet s.deviceMap deviceId = some sensor) :
    (transportDisconnect s deviceId).connectedDeviceId = none ∧
    mapGet (transportDisconnect s deviceId).deviceMap deviceId =
      some { sensor with status := .idle, isCollecting := some false } ∧
    (transportDisconnect s deviceId).isScanning = true ∧
    ∀ sub ∈ (transportDisconnect s deviceId).subscriptions, sub.1 ≠ deviceId := by
  have hs' :
      mapGet
        ({ s with subscriptions := s.subscriptions.filter (fun sub => sub.1 ≠ deviceId) } :
          BleState).deviceMap
        deviceId = some sensor := hs
  unfold transportDisconnect
  rw [onDisconnect_char _ deviceId sensor hs']
  refine ⟨rfl, mapGet_mapSet_same _ _ _, rfl, ?_⟩
  intro sub hsub
  rw [List.mem_filter] at hsub
  simpa using hsub.2

/-! ### Claim theorems -/

/-- Claim C1 is false on the code: the data-notification callback never
compares the decoded sequence number with the watermark before
appending.  With sensor `S` at watermark 4, the payload with sequence
number 3 (not greater than 4) is still appended, and processing the
same payload twice stores two identical entries with the same
(producing identity, sequence number) key. -/
theorem C1_counterexample :
    sd3.measureCount ≤ sensorS.lastKnownMeasureCount ∧
    storedData (onDataNotification stateS "S" payload3) "S" =
      [{ sd3 with measuredAt := sd3.measuredAt * 1000 }] ∧
    storedData (onDataNotification (onDataNotification stateS "S" payload3) "S" payload3) "S" =
      [{ sd3 with measuredAt := sd3.measuredAt * 1000 },
       { sd3 with measuredAt := sd3.measuredAt * 1000 }] := by
  refine ⟨by decide, by decide, by decide⟩

/-- Claim C1 amended: every successfully decoded measurement is
appended to the Sensor Record's measurement list unconditionally — a
frame whose sequence number is not greater than the watermark is not
discarded, so replaying a payload appends it again — while the
watermark itself is advanced to the maximum of its old value and the
frame's sequence number. -/
theorem C1_amended (s : BleState) (sensorId : String) (p : DataPayload)
    (d : SensorData) (sensor : TempSensor)
    (hd : decodeData p = some d) (hs : mapGet s.deviceMap sensorId = some sensor) :
    storedData (onDataNotification s sensorId p) sensorId =
      storedData s sensorId ++ [{ d with measuredAt := d.measuredAt * 1000 }] ∧
    inMemWatermark (onDataNotification s sensorId p) sensorId =
      max sensor.lastKnownMeasureCount d.measureCount :=
  ⟨storedData_onData s sensorId p d sensor hd hs,
   inMemWatermark_onData s sensorId p d sensor hd hs⟩

/-- Witness for `C1_amended` at sensor `S` (watermark 4) and the
sequence-7 payload. -/
theorem C1_amended_witness :
    decodeData payload7 = some sd7 ∧
    mapGet stateS.deviceMap "S" = some sensorS ∧
    (storedData (onDataNotification stateS "S" payload7) "S" =
      storedData stateS "S" ++ [{ sd7 with measuredAt := sd7.measuredAt * 1000 }] ∧
     inMemWatermark (onDataNotification stateS "S" payload7) "S" =
      max sensorS.lastKnownMeasureCount sd7.measureCount) :=
  ⟨rfl, by decide, C1_amended stateS "S" payload7 sd7 sensorS rfl (by decide)⟩

/-- Claim C2: starting in sync at watermark `w`, delivering any finite
payload sequence (any order, repeats, malformed frames ignored) and
letting every started durable write land leaves the persisted watermark
at the maximum sequence number ever decoded taken together with `w`;
and the in-memory watermark never decreases across any single ingest. -/
theorem C2_watermark_max (s : BleState) (sensorId : String) (w : Nat) (sensor : TempSensor)
    (ps : List DataPayload)
    (hs : mapGet s.deviceMap sensorId = some sensor)
    (hw : sensor.lastKnownMeasureCount = w)
    (hdur : watermarkGet s.durableStore sensorId = w)
    (hpend : s.pendingSaves = []) :
    watermarkGet (drainSaves (processAll s sensorId ps)).durableStore sensorId =
      (seqsOf ps).foldl max w ∧
    ∀ (t : BleState) (p : DataPayload),
      inMemWatermark t sensorId ≤ inMemWatermark (onDataNotification t sensorId p) sensorId := by
  refine ⟨?_, fun t p => inMemWatermark_onData_mono t sensorId p⟩
  obtain ⟨sensor2, h2, h3, h4, h5⟩ := processAll_spec sensorId ps s sensor hs
  cases h5 with
  | inl hcase =>
      obtain ⟨hseq, hpe⟩ := hcase
      rw [hseq]
      simp [drainSaves, hpe, hpend, h4, hdur]
  | inr hcase =>
      obtain ⟨snap, hl, hwm⟩ := hcase
      have hld : (drainSaves (processAll s sensorId ps)).durableStore = snap := by
        simp only [drainSaves, List.getLastD_eq_getLast?, hl, Option.getD_some]
      rw [hld, hwm, h3, hw]

/-- Witness for `C2_watermark_max`: sensor `S` in sync at watermark 4
receives sequence 7, then a repeat of sequence 3, then a malformed
frame; the drained persisted watermark is `max (max 4 7) 3 = 7`. -/
theorem C2_watermark_max_witness :
    mapGet stateS.deviceMap "S" = some sensorS ∧
    sensorS.lastKnownMeasureCount = 4 ∧
    watermarkGet stateS.durableStore "S" = 4 ∧
    stateS.pendingSaves = [] ∧
    (watermarkGet (drainSaves (processAll stateS "S"
        [payload7, payload3, badPayload])).durableStore "S" =
      (seqsOf [payload7, payload3, badPayload]).foldl max 4 ∧
     ∀ (t : BleState) (p : DataPayload),
       inMemWatermark t "S" ≤ inMemWatermark (onDataNotification t "S" p) "S") :=
  ⟨by decide, by decide, by decide, rfl,
   C2_watermark_max stateS "S" 4 sensorS [payload7, payload3, badPayload]
     (by decide) (by decide) (by decide) rfl⟩

/-- Claim C3 is false on the code as stated: while the connect request
for `A` is in flight (its record is `processing`, scanning stopped) the
connected-device id is still unset, because `connectToSensor` only
assigns it after the transport connect succeeds; so a connect request
for `B` arriving in that window passes the guard of line 196 and
proceeds to issue a transport connect instead of being rejected. -/
theorem C3_counterexample :
    connectToSensorStart stateAB "A" = some stateA1 ∧
    stateA1.connectedDeviceId = none ∧
    mapGet stateA1.deviceMap "A" = some { sensorIdleA with status := .processing } ∧
    (connectToSensorStart stateA1 "B").isSome = true := by
  refine ⟨by decide, rfl, by decide, by decide⟩

/-- Claim C3 amended: a connect request is rejected — no transport
connect, no state change — whenever a connection is already
established (the connected-device id is set, which holds in the Active
state); requests arriving while another request is still connecting
(before transport connect success) are not guarded. -/
theorem C3_amended (s : BleState) (sensorId x : String)
    (hc : s.connectedDeviceId = some x) :
    connectToSensorStart s sensorId = none := by
  unfold connectToSensorStart
  cases mapGet s.deviceMap sensorId <;> simp [hc]

/-- Witness for `C3_amended`: with `S` connected, a connect request for
`S` (or anything else) is rejected. -/
theorem C3_amended_witness :
    stateS.connectedDeviceId = some "S" ∧
    connectToSensorStart stateS "S" = none :=
  ⟨rfl, C3_amended stateS "S" "S" rfl⟩

/-- Claim C4: processing a disconnection through the `onDisconnect`
handler — peer-initiated (transport drop) or host-initiated
(`disconnect()`, which funnels into the same transport disconnect) —
leaves the connected-device id unset, the affected Sensor Record
`idle`, scanning resumed, and no notification subscription on the
device still active. -/
theorem C4_disconnect_recovery (s : BleState) (deviceId : String) (sensor : TempSensor)
    (hs : mapGet s.deviceMap deviceId = some sensor) :
    ((transportDisconnect s deviceId).connectedDeviceId = none ∧
     mapGet (transportDisconnect s deviceId).deviceMap deviceId =
       some { sensor with status := .idle, isCollecting := some false } ∧
     (transportDisconnect s deviceId).isScanning = true ∧
     ∀ sub ∈ (transportDisconnect s deviceId).subscriptions, sub.1 ≠ deviceId) ∧
    (s.connectedDeviceId = some deviceId →
     ((hostDisconnect s).connectedDeviceId = none ∧
      mapGet (hostDisconnect s).deviceMap deviceId =
        some { sensor with status := .idle, isCollecting := some false } ∧
      (hostDisconnect s).isScanning = true ∧
      ∀ sub ∈ (hostDisconnect s).subscriptions, sub.1 ≠ deviceId)) := by
  refine ⟨transportDisconnect_char s deviceId sensor hs, ?_⟩
  intro hc
  simp only [hostDisconnect, hc]
  exact transportDisconnect_char _ deviceId sensor hs

/-- Witness for `C4_disconnect_recovery` at the active session state
for sensor `S`. -/
theorem C4_disconnect_recovery_witness :
    mapGet stateS.deviceMap "S" = some sensorS ∧
    (((transportDisconnect stateS "S").connectedDeviceId = none ∧
      mapGet (transportDisconnect stateS "S").deviceMap "S" =
        some { sensorS with status := .idle, isCollecting := some false } ∧
      (transportDisconnect stateS "S").isScanning = true ∧
      ∀ sub ∈ (transportDisconnect stateS "S").subscriptions, sub.1 ≠ "S") ∧
     (stateS.connectedDeviceId = some "S" →
      ((hostDisconnect stateS).connectedDeviceId = none ∧
       mapGet (hostDisconnect stateS).deviceMap "S" =
         some { sensorS with status := .idle, isCollecting := some false } ∧
       (hostDisconnect stateS).isScanning = true ∧
       ∀ sub ∈ (hostDisconnect stateS).subscriptions, sub.1 ≠ "S"))) :=
  ⟨by decide, C4_disconnect_recovery stateS "S" sensorS (by decide)⟩

/-- Claim C5 is false on the code as stated: `saveDeviceSettings()` is
started without `await` (line 240), so the ingest callback completes
while the durable write is still pending.  Concretely, after ingesting
sequence 7 over watermark 4, the ingest call has returned with the
in-memory watermark at 7, the durable store still at 4 and the write
still queued. -/
theorem C5_counterexample :
    inMemWatermark (onDataNotification stateS "S" payload7) "S" = 7 ∧
    (onDataNotification stateS "S" payload7).durableStore = [("S", 4)] ∧
    (onDataNotification stateS "S" payload7).pendingSaves = [[("S", 7)]] := by
  refine ⟨by decide, by decide, by decide⟩

/-- Claim C5 amended: an ingest that decodes successfully appends the
measurement, advances the in-memory watermark, and initiates (queues)
the durable persist of the new watermark before the ingest call
completes, but the durable write itself lands asynchronously after the
call returns; along any interleaving of ingests and completing writes,
the durable watermark never exceeds the in-memory watermark. -/
theorem C5_amended (s : BleState) (sensorId : String) (steps : List BleStep)
    (hinv : durableLagInv s sensorId) :
    (∀ (t : BleState) (p : DataPayload) (d : SensorData) (sensor : TempSensor),
        decodeData p = some d → mapGet t.deviceMap sensorId = some sensor →
        storedData (onDataNotification t sensorId p) sensorId =
          storedData t sensorId ++ [{ d with measuredAt := d.measuredAt * 1000 }] ∧
        inMemWatermark (onDataNotification t sensorId p) sensorId =
          max sensor.lastKnownMeasureCount d.measureCount ∧
        (onDataNotification t sensorId p).pendingSaves =
          t.pendingSaves ++ [(onDataNotification t sensorId p).deviceSettingsMap] ∧
        watermarkGet (onDataNotification t sensorId p).deviceSettingsMap sensorId =
          inMemWatermark (onDataNotification t sensorId p) sensorId ∧
        (onDataNotification t sensorId p).durableStore = t.durableStore) ∧
    ∀ sensor, mapGet (runSteps s steps).deviceMap sensorId = some sensor →
      watermarkGet (runSteps s steps).durableStore sensorId ≤
        sensor.lastKnownMeasureCount := by
  constructor
  · intro t p d sensor hd hs
    have h1 := onDataNotification_decode_ok t sensorId p d sensor hd hs
    refine ⟨storedData_onData t sensorId p d sensor hd hs,
            inMemWatermark_onData t sensorId p d sensor hd hs, ?_, ?_, ?_⟩
    · rw [h1]
    · rw [h1]
      simp [inMemWatermark, mapGet_mapSet_same, watermarkGet_mapSet_same]
    · rw [h1]
  · intro sensor hsen
    exact (durableLagInv_runSteps sensorId steps s hinv sensor hsen).1

/-- Witness for `C5_amended` at the in-sync session state for `S`,
with one ingest followed by one completing durable write. -/
theorem C5_amended_witness :
    durableLagInv stateS "S" ∧
    ((∀ (t : BleState) (p : DataPayload) (d : SensorData) (sensor : TempSensor),
        decodeData p = some d → mapGet t.deviceMap "S" = some sensor →
        storedData (onDataNotification t "S" p) "S" =
          storedData t "S" ++ [{ d with measuredAt := d.measuredAt * 1000 }] ∧
        inMemWatermark (onDataNotification t "S" p) "S" =
          max sensor.lastKnownMeasureCount d.measureCount ∧
        (onDataNotification t "S" p).pendingSaves =
          t.pendingSaves ++ [(onDataNotification t "S" p).deviceSettingsMap] ∧
        watermarkGet (onDataNotification t "S" p).deviceSettingsMap "S" =
          inMemWatermark (onDataNotification t "S" p) "S" ∧
        (onDataNotification t "S" p).durableStore = t.durableStore) ∧
     ∀ sensor,
       mapGet (runSteps stateS [BleStep.data "S" payload7, BleStep.persist]).deviceMap "S" =
         some sensor →
       watermarkGet (runSteps stateS
           [BleStep.data "S" payload7, BleStep.persist]).durableStore "S" ≤
         sensor.lastKnownMeasureCount) := by
  have hinv : durableLagInv stateS "S" := by
    intro sensor hsen
    have h0 : mapGet stateS.deviceMap "S" = some sensorS := by decide
    rw [h0] at hsen
    obtain rfl : sensorS = sensor := Option.some.inj hsen
    refine ⟨by decide, by decide, ?_⟩
    intro snap hsnap
    simp [stateS] at hsnap
  exact ⟨hinv, C5_amended stateS "S" [BleStep.data "S" payload7, BleStep.persist] hinv⟩

/-- Claim C6: the request-data-since frame issued for an identity
carries, in bytes 1..4 little-endian, exactly the watermark the store
returns for that identity (default 0), so with the store holding 10
for `D1` the command carries 10, not 0.  The issuing call site is
modelled from the spec (`issueRequestDataFrame`), the frame layout from
`requestData`. -/
theorem C6_request_uses_store (store : List (String × Nat)) (sensorId : String)
    (h : watermarkGet store sensorId < 4294967296) :
    issueRequestDataFrame store sensorId = requestDataFrame (watermarkGet store sensorId) ∧
    decodeCommandFrame (issueRequestDataFrame store sensorId) =
      some (OPCODE_REQUEST_DATA, watermarkGet store sensorId) :=
  ⟨rfl, requestDataFrame_roundtrip _ h⟩

/-- Witness for `C6_request_uses_store`: store holding 10 for `D1`
yields parameter 10. -/
theorem C6_request_uses_store_witness :
    watermarkGet [("D1", 10)] "D1" < 4294967296 ∧
    watermarkGet [("D1", 10)] "D1" = 10 ∧
    decodeCommandFrame (issueRequestDataFrame [("D1", 10)] "D1") =
      some (OPCODE_REQUEST_DATA, watermarkGet [("D1", 10)] "D1") :=
  ⟨by decide, by decide, (C6_request_uses_store [("D1", 10)] "D1" (by decide)).2⟩

/-- Claim C7: for every sequence number below 2^32, the encoded
request-data-since frame is 5 bytes, byte 0 the opcode `0x01`, bytes
1..4 the sequence number little-endian, and decoding recovers opcode
and parameter. -/
theorem C7_roundtrip (n : Nat) (h : n < 4294967296) :
    requestDataFrame n =
      [OPCODE_REQUEST_DATA, n % 256, n / 256 % 256, n / 65536 % 256, n / 16777216 % 256] ∧
    (requestDataFrame n).length = 5 ∧
    decodeCommandFrame (requestDataFrame n) = some (OPCODE_REQUEST_DATA, n) := by
  have hmod : n % 4294967296 = n := Nat.mod_eq_of_lt h
  refine ⟨?_, rfl, requestDataFrame_roundtrip n h⟩
  simp [requestDataFrame, hmod]

/-- Witness for `C7_roundtrip` at sequence number 42. -/
theorem C7_roundtrip_witness :
    (42 : Nat) < 4294967296 ∧
    (requestDataFrame 42 = [OPCODE_REQUEST_DATA, 42 % 256, 42 / 256 % 256,
        42 / 65536 % 256, 42 / 16777216 % 256] ∧
     (requestDataFrame 42).length = 5 ∧
     decodeCommandFrame (requestDataFrame 42) = some (OPCODE_REQUEST_DATA, 42)) :=
  ⟨by decide, C7_roundtrip 42 (by decide)⟩

/-- Claim C8: a payload that fails to decode leaves the whole service
state unchanged — connection state, connected identity, measurement
list and watermark included — and a subsequent well-formed payload for
the same identity is still ingested normally. -/
theorem C8_decode_failure (s : BleState) (sensorId : String) (p p2 : DataPayload)
    (d : SensorData) (sensor : TempSensor)
    (hp : decodeData p = none)
    (hd : decodeData p2 = some d)
    (hs : mapGet s.deviceMap sensorId = some sensor) :
    onDataNotification s sensorId p = s ∧
    storedData (onDataNotification (onDataNotification s sensorId p) sensorId p2) sensorId =
      storedData s sensorId ++ [{ d with measuredAt := d.measuredAt * 1000 }] := by
  have h1 := onDataNotification_decode_fail s sensorId p hp
  refine ⟨h1, ?_⟩
  rw [h1]
  exact storedData_onData s sensorId p2 d sensor hd hs

/-- Witness for `C8_decode_failure`: a malformed frame mid-session for
`S`, then the sequence-7 payload. -/
theorem C8_decode_failure_witness :
    decodeData badPayload = none ∧
    decodeData payload7 = some sd7 ∧
    mapGet stateS.deviceMap "S" = some sensorS ∧
    (onDataNotification stateS "S" badPayload = stateS ∧
     storedData (onDataNotification (onDataNotification stateS "S" badPayload) "S" payload7) "S" =
       storedData stateS "S" ++ [{ sd7 with measuredAt := sd7.measuredAt * 1000 }]) :=
  ⟨rfl, rfl, by decide, C8_decode_failure stateS "S" badPayload payload7 sd7 sensorS rfl rfl (by decide)⟩

/-- Claim C9 is false on the code as stated: an advertisement for a
seen identity also re-reads `lastKnownMeasureCount` from the settings
store (line 186), not only signal strength and last-seen time.  When
device `D` was inserted before the settings load resolved (watermark
0) and the load later delivered 10, the next advertisement changes the
record's watermark field from 0 to 10. -/
theorem C9_counterexample :
    (mapGet state9c.deviceMap "D").map TempSensor.lastKnownMeasureCount = some 0 ∧
    (mapGet state9c.deviceMap "D").map TempSensor.status = some Status.idle ∧
    (mapGet (onScanResult state9c 5 scanD).deviceMap "D").map TempSensor.lastKnownMeasureCount =
      some 10 := by
  refine ⟨by decide, by decide, by decide⟩

/-- Claim C9 amended: an advertisement for a seen identity refreshes
exactly the signal strength, the last-seen time and the
`lastKnownMeasureCount` mirror of the settings store, leaving status,
measurement list and every other field unchanged; an unseen identity
is inserted with status `idle`, empty measurement list and the stored
watermark. -/
theorem C9_amended (s : BleState) (now : Nat) (r : ScanResult) :
    (mapGet s.deviceMap r.deviceId = none →
      mapGet (onScanResult s now r).deviceMap r.deviceId = some
        { id := r.deviceId
          name := r.localName.getD "ESP32_Sensor"
          rssi := r.rssi.getD (-100)
          lastUpdate := now
          status := .idle
          sensorData := some []
          lastKnownMeasureCount := watermarkGet s.deviceSettingsMap r.deviceId
          isCollecting := none }) ∧
    ∀ d, mapGet s.deviceMap r.deviceId = some d →
      mapGet (onScanResult s now r).deviceMap r.deviceId = some
        { d with
          rssi := r.rssi.getD (-100)
          lastUpdate := now
          lastKnownMeasureCount := watermarkGet s.deviceSettingsMap r.deviceId } := by
  constructor
  · intro h
    simp only [onScanResult, h]
    exact mapGet_mapSet_same _ _ _
  · intro d h
    simp only [onScanResult, h]
    exact mapGet_mapSet_same _ _ _

/-- Witness for `C9_amended`: the refresh of the seen device `D` after
the settings load delivered watermark 10. -/
theorem C9_amended_witness :
    mapGet state9c.deviceMap scanD.deviceId = some sensorD0 ∧
    mapGet (onScanResult state9c 5 scanD).deviceMap scanD.deviceId = some
      { sensorD0 with
        rssi := scanD.rssi.getD (-100)
        lastUpdate := 5
        lastKnownMeasureCount := watermarkGet state9c.deviceSettingsMap scanD.deviceId } :=
  ⟨by decide, (C9_amended state9c 5 scanD).2 sensorD0 (by decide)⟩

/-- Claim C10: the stored measurement equals the decoded wire record
with `measuredAt` scaled by 1000 (seconds to milliseconds) and every
other field unchanged. -/
theorem C10_measuredAt_ms (s : BleState) (sensorId : String) (p : DataPayload)
    (d : SensorData) (sensor : TempSensor)
    (hd : decodeData p = some d) (hs : mapGet s.deviceMap sensorId = some sensor) :
    ∃ stored,
      storedData (onDataNotification s sensorId p) sensorId =
        storedData s sensorId ++ [stored] ∧
      stored.measuredAt = d.measuredAt * 1000 ∧
      stored.producedBy = d.producedBy ∧
      stored.relayedBy = d.relayedBy ∧
      stored.measureCount = d.measureCount ∧
      stored.temperature = d.temperature ∧
      stored.humidity = d.humidity ∧
      stored.stateOfEnergy = d.stateOfEnergy :=
  ⟨{ d with measuredAt := d.measuredAt * 1000 },
   storedData_onData s sensorId p d sensor hd hs, rfl, rfl, rfl, rfl, rfl, rfl, rfl⟩

/-- Witness for `C10_measuredAt_ms` at the sequence-3 payload
(`measuredAt` 100 seconds stored as 100000 milliseconds). -/
theorem C10_measuredAt_ms_witness :
    decodeData payload3 = some sd3 ∧
    mapGet stateS.deviceMap "S" = some sensorS ∧
    (∃ stored,
      storedData (onDataNotification stateS "S" payload3) "S" =
        storedData stateS "S" ++ [stored] ∧
      stored.measuredAt = sd3.measuredAt * 1000 ∧
      stored.producedBy = sd3.producedBy ∧
      stored.relayedBy = sd3.relayedBy ∧
      stored.measureCount = sd3.measureCount ∧
      stored.temperature = sd3.temperature ∧
      stored.humidity = sd3.humidity ∧
      stored.stateOfEnergy = sd3.stateOfEnergy) :=
  ⟨rfl, by decide, C10_measuredAt_ms stateS "S" payload3 sd3 sensorS rfl (by decide)⟩

end TempScanner
